import Mathlib

/-!
# Verification of the wnrake resilient fetch layer

A shallow embedding of the core components of the `wnrake` repository:
the error taxonomy and solver-envelope classification (`src/lib/error.rs`,
`src/lib/client.rs`), the retry-with-recovery loop (`Client::n_attempts`),
session destruction (`Client::destroy_session`), the session-create proxy
payload (`Proxy::to_json`), the egress controller restart protocol
(`src/lib/proxy/api.rs`), the date-scoped response cache
(`src/lib/cache.rs`), and the multi-worker download orchestrator
(`src/src/download.rs`).

Network effects are modelled by passing the environment's responses as
oracle functions; wall-clock bounded waits are modelled as poll budgets;
the filesystem backing the cache is modelled as an association list from
file names to contents.
-/

namespace Wnrake

/-! ## String helpers

The Rust code uses `str::starts_with` and `str::contains`; we model both
over the character list of a `String`. -/

/-- `listStartsWith s p` : does the character list `s` begin with `p`?
Mirrors Rust `str::starts_with`. -/
def listStartsWith : List Char → List Char → Bool
  | _, [] => true
  | [], _ :: _ => false
  | a :: as, b :: bs => a == b && listStartsWith as bs

/-- `listContainsSub s p` : does `s` contain `p` as a contiguous substring?
Mirrors Rust `str::contains`. -/
def listContainsSub : List Char → List Char → Bool
  | [], p => p.isEmpty
  | s@(_ :: rest), p => listStartsWith s p || listContainsSub rest p

/-- String-level `starts_with`. -/
def strStartsWith (s p : String) : Bool :=
  listStartsWith s.data p.data

/-- String-level substring containment (`str::contains`). -/
def strContains (s p : String) : Bool :=
  listContainsSub s.data p.data

/-! ## Error taxonomy (`src/lib/error.rs`) -/

/-- The `ErrorType` enum of `src/lib/error.rs`. -/
inductive ErrorType where
  | Config
  | Epub
  | Html
  | Io
  | Json
  | Parser
  | Proxy
  | Solution
  | Solver
  | Status
  deriving DecidableEq, Repr

/-- The `Error` struct of `src/lib/error.rs`: a kind, a `fatal` flag and a
free-text message. -/
structure Error where
  error_type : ErrorType
  fatal : Bool
  message : String
  deriving DecidableEq, Repr

namespace Error

/-- `Error::solution` — non-fatal. -/
def solution (msg : String) : Error :=
  ⟨ErrorType.Solution, false, msg⟩

/-- `Error::solver` — fatal. -/
def solver (msg : String) : Error :=
  ⟨ErrorType.Solver, true, msg⟩

/-- `Error::proxy` — non-fatal. -/
def proxy (msg : String) : Error :=
  ⟨ErrorType.Proxy, false, msg⟩

/-- `Error::status` — fatal, message records the HTTP status. -/
def status (s : Nat) : Error :=
  ⟨ErrorType.Status, true, "returned status " ++ toString s⟩

/-- `Error::parse_solution_error`: substring triage of the solver's
free-text message (`src/lib/error.rs:97-118`). -/
def parse_solution_error (message : String) : Error :=
  if strContains message "ERR_TUNNEL_CONNECTION_FAILED" then
    ⟨ErrorType.Proxy, true, message⟩
  else if strContains message "Error solving the challenge" then
    ⟨ErrorType.Solution, false, message⟩
  else
    ⟨ErrorType.Solver, true, message⟩

end Error

/-! ## Solver envelope (`src/lib/solution.rs`) and single-fetch
classification (`Client::post_data`, `Client::fetch`) -/

/-- The `Solution` payload: the fields the fetch path inspects. -/
structure Solution where
  url : String
  status : Nat
  response : String
  deriving DecidableEq, Repr

/-- The solver's JSON `Response` envelope: the fields the fetch path
inspects. -/
structure Response where
  status : String
  message : String
  session : Option String
  solution : Option Solution
  deriving DecidableEq, Repr

/-- `Client::post_data` after the transport/JSON layer: accept a
decoded envelope when `status == "ok"`, otherwise classify the free-text
message (`src/lib/client.rs:149-164`). -/
def post_data (res : Response) : Except Error Response :=
  if res.status = "ok" then Except.ok res
  else Except.error (Error.parse_solution_error res.message)

/-- The envelope-classification part of `Client::fetch`
(`src/lib/client.rs:332-343`): after `post_data`, demand a solution
payload with HTTP status 200 and return its response body. -/
def fetchClassify (res : Response) : Except Error String :=
  match post_data res with
  | Except.error e => Except.error e
  | Except.ok r =>
    match r.solution with
    | some solution =>
      if solution.status = 200 then Except.ok solution.response
      else Except.error (Error.status solution.status)
    | none => Except.error (Error.solution "no solution in response")

/-- Kind and fatality of the error of a classification result, if any. -/
def resultKind (r : Except Error String) : Option (ErrorType × Bool) :=
  match r with
  | Except.error e => some (e.error_type, e.fatal)
  | Except.ok _ => none

/-! ## The retry-with-recovery loop (`Client::n_attempts`,
`src/lib/client.rs:257-305`)

The environment is an oracle `fetchO k` giving the result of the `k`-th
call to `Client::fetch` and an oracle `recO k` giving the result of the
`k`-th call to `Client::recover` (`none` = recovery succeeded).  The loop
state is the index of the next fetch call, the index of the next recover
call and the shared `attempts` counter; the result also reports how many
fetch and recover calls were made.  The Rust loop always terminates
(every continuing iteration increments `attempts`, which is bounded by
`max_attempts`); we make this explicit with a fuel parameter. -/

mutual

/-- One iteration of the outer loop of `Client::n_attempts`: call
`fetch`; on success return; on fatal error return; on non-fatal error
increment the shared counter, return the error once the budget is
reached, else enter the recovery sub-loop. -/
def nAttemptsOuter (fetchO : Nat → Except Error String) (recO : Nat → Option Error)
    (max : Nat) : Nat → Nat → Nat → Nat → Option (Except Error String × Nat × Nat)
  | 0, _, _, _ => none
  | fuel + 1, f, r, a =>
    match fetchO f with
    | Except.ok s => some (Except.ok s, f + 1, r)
    | Except.error e =>
      if e.fatal then some (Except.error e, f + 1, r)
      else if max ≤ a + 1 then some (Except.error e, f + 1, r)
      else nAttemptsInner fetchO recO max fuel (f + 1) r (a + 1)

/-- The inner recovery loop of `Client::n_attempts`: call `recover`
until it succeeds; a fatal recovery error returns; a non-fatal one
increments the same shared counter and returns the error once the
budget is reached. -/
def nAttemptsInner (fetchO : Nat → Except Error String) (recO : Nat → Option Error)
    (max : Nat) : Nat → Nat → Nat → Nat → Option (Except Error String × Nat × Nat)
  | 0, _, _, _ => none
  | fuel + 1, f, r, a =>
    match recO r with
    | none => nAttemptsOuter fetchO recO max fuel f (r + 1) a
    | some e =>
      if e.fatal then some (Except.error e, f, r + 1)
      else if max ≤ a + 1 then some (Except.error e, f, r + 1)
      else nAttemptsInner fetchO recO max fuel f (r + 1) (a + 1)

end

/-- `Client::n_attempts` itself: run the loop from a fresh state.
The returned numbers are the total counts of fetch and recover calls. -/
def n_attempts (fetchO : Nat → Except Error String) (recO : Nat → Option Error)
    (max fuel : Nat) : Option (Except Error String × Nat × Nat) :=
  nAttemptsOuter fetchO recO max fuel 0 0 0

/-! ## Session destruction (`Client::destroy_session`,
`src/lib/client.rs:189-203`)

`sendRes` is the transport-level result of posting the
`sessions.destroy` command.  The model returns the caller-visible
result, the new local session state, and whether a remote command was
sent at all. -/

/-- `Client::destroy_session`: no-op on no session; otherwise post the
destroy command — a transport failure propagates via `?` before the
local session is cleared. -/
def destroy_session (session : Option String) (sendRes : Except Error Unit) :
    Except Error Unit × Option String × Bool :=
  match session with
  | none => (Except.ok (), none, false)
  | some s =>
    match sendRes with
    | Except.error e => (Except.error e, some s, true)
    | Except.ok _ => (Except.ok (), none, true)

/-! ## The session-create proxy payload (`Proxy::to_json`,
`src/lib/proxy.rs:121-131`, and `Client::create_session`,
`src/lib/client.rs:167-186`) -/

/-- The proxy configuration fields carried into `to_json`. -/
structure Proxy where
  url : String
  username : Option String
  password : Option String
  deriving DecidableEq, Repr

/-- `Proxy::to_json`, transcribed from the source: note that the inner
`if let` reads `self.username()` a second time when filling the
`"password"` field. -/
def Proxy.to_json (p : Proxy) : List (String × String) :=
  [("url", p.url)] ++
    (match p.username with
     | some username =>
       [("username", username)] ++
         (match p.username with
          | some password => [("password", password)]
          | none => [])
     | none => [])

/-- The body of the `sessions.create` command built by
`Client::create_session`: the command name plus, when a proxy is
configured, the serialized proxy object. -/
def create_session_data (proxy : Option Proxy) :
    List (String × String) × Option (List (String × String)) :=
  ([("cmd", "sessions.create")], proxy.map Proxy.to_json)

/-! ## The egress controller (`src/lib/proxy/api.rs`)

`Api::wait_for_status` and `Api::wait_for_ip` poll once a second under a
wall-clock timeout of `seconds`; we model the bounded wait as a budget of
`seconds` polls.  `statusO k` is the result of the `k`-th status poll
(`none` when `Api::status` itself errors, which the loop skips), `ipO k`
the result of the `k`-th IP probe (`some ip` only for a successful
non-empty IP).  `Api::restart` issues exactly one state-transition
request — `put_state("stopped")`, its result discarded — and then runs
three bounded waits; we also record the list of transition requests it
sends. -/

/-- The `ProxyStatus` enum (`src/lib/proxy.rs`). -/
inductive ProxyStatus where
  | Running
  | Stopped
  | Unknown
  deriving DecidableEq, Repr

/-- `Api::wait_for_status`: poll until the status matches the target,
with a budget of `seconds` polls; on exhaustion return the non-fatal
proxy timeout error.  On success returns the index of the next unused
poll. -/
def wait_for_status (statusO : Nat → Option ProxyStatus) (target : ProxyStatus) :
    Nat → Nat → Except Error Nat
  | 0, _ => Except.error (Error.proxy "waiting for proxy timed out")
  | fuel + 1, k =>
    if statusO k = some target then Except.ok (k + 1)
    else wait_for_status statusO target fuel (k + 1)

/-- `Api::wait_for_ip`: poll until a (non-empty) public IP is observed,
with a budget of `seconds` polls. -/
def wait_for_ip (ipO : Nat → Option String) : Nat → Nat → Except Error Nat
  | 0, _ => Except.error (Error.proxy "waiting for IP timed out")
  | fuel + 1, k =>
    match ipO k with
    | some _ => Except.ok (k + 1)
    | none => wait_for_ip ipO fuel (k + 1)

/-- `Api::restart` (`src/lib/proxy/api.rs:96-106`): ignore the result of
a single `put_state("stopped")`, wait for `Stopped`, wait for `Running`,
wait for an IP.  The second component records every state-transition
request sent. -/
def restart (putRes : Except Error Unit) (statusO : Nat → Option ProxyStatus)
    (ipO : Nat → Option String) (seconds : Nat) :
    Except Error Unit × List String :=
  let _ := putRes
  let puts := ["stopped"]
  match wait_for_status statusO ProxyStatus.Stopped seconds 0 with
  | Except.error e => (Except.error e, puts)
  | Except.ok k1 =>
    match wait_for_status statusO ProxyStatus.Running seconds k1 with
    | Except.error e => (Except.error e, puts)
    | Except.ok _ =>
      match wait_for_ip ipO seconds 0 with
      | Except.error e => (Except.error e, puts)
      | Except.ok _ => (Except.ok (), puts)

/-! ## The response cache (`src/lib/cache.rs`)

The cache directory is an association list from file names to file
contents; `prefix` is today's date string. -/

/-- `Cache::clean`: delete every file whose name does not start with the
day prefix (`src/lib/cache.rs:36-50`). -/
def cleanDir (pfx : String) (dir : List (String × String)) : List (String × String) :=
  dir.filter (fun e => strStartsWith e.1 pfx)

/-- Rust `str::replace`, with explicit fuel: replace every
non-overlapping occurrence of `pat` (left to right) by `repl`.  Each
step consumes at least one character, so fuel equal to the length of the
input is always sufficient. -/
def replaceAllGo (pat repl : List Char) : Nat → List Char → List Char
  | 0, s => s
  | _ + 1, [] => []
  | fuel + 1, c :: rest =>
    if pat ≠ [] ∧ listStartsWith (c :: rest) pat = true then
      repl ++ replaceAllGo pat repl fuel (List.drop (pat.length - 1) rest)
    else
      c :: replaceAllGo pat repl fuel rest

/-- Rust `str::replace` on character lists. -/
def replaceAll (pat repl s : List Char) : List Char :=
  replaceAllGo pat repl s.length s

/-- The URL sanitization of `Cache::url_to_path`: drop `':'`, collapse
`"//"` to `"/"`, then turn `'/'` into `'_'`. -/
def sanitizeUrl (url : String) : String :=
  String.mk (replaceAll ['/'] ['_']
    (replaceAll ['/', '/'] ['/']
      (replaceAll [':'] [] url.data)))

/-- `Cache::url_to_path`: the day prefix, an underscore, then the
sanitized URL (`src/lib/cache.rs:52-62`). -/
def url_to_path (pfx url : String) : String :=
  pfx ++ "_" ++ sanitizeUrl url

/-- `Cache::get`: read the file the URL maps to, if present. -/
def cacheGet (pfx : String) (dir : List (String × String)) (url : String) :
    Option String :=
  dir.lookup (url_to_path pfx url)

/-- `Cache::insert`: create (overwrite) the file the URL maps to. -/
def cacheInsert (pfx : String) (dir : List (String × String))
    (url data : String) : List (String × String) :=
  (url_to_path pfx url, data) :: dir.filter (fun e => e.1 ≠ url_to_path pfx url)

/-! ## The multi-worker orchestrator (`src/src/download.rs`)

A work item is `(sequence-index, url)`.  `dl i url` is the outcome of
`download_chapter` for that item.  A single worker's interaction with
the queue is sequential (pop, work, push-front on failure), so
`Worker::do_work` is a function from the queue it observes to the queue
it leaves behind plus the items it delivered. -/

/-- The worker's pop/fetch/push-front loop (`Worker::do_work`,
`src/src/download.rs:168-188`): pop the front; on success continue; on
failure push the very same item back to the front and stop. -/
def doWorkLoop (dl : Nat → String → Bool) :
    List (Nat × String) → List (Nat × String) × List (Nat × String)
  | [] => ([], [])
  | (i, url) :: rest =>
    if dl i url then
      let res := doWorkLoop dl rest
      (res.1, (i, url) :: res.2)
    else ((i, url) :: rest, [])

/-- The result of one worker run: the queue left behind, the delivered
items in delivery order, and whether `destroy_session` was invoked on
the way out. -/
structure WorkerResult where
  queue : List (Nat × String)
  delivered : List (Nat × String)
  destroyedSession : Bool
  deriving DecidableEq, Repr

/-- `Worker::do_work` (`src/src/download.rs:163-193`): create a session
(on failure the loop never runs), run the loop, and always call
`destroy_session` at the end. -/
def do_work (createRes : Except Error Unit) (dl : Nat → String → Bool)
    (queue : List (Nat × String)) : WorkerResult :=
  match createRes with
  | Except.error _ => ⟨queue, [], true⟩
  | Except.ok _ =>
    let res := doWorkLoop dl queue
    ⟨res.1, res.2, true⟩

/-- The completion check of `Download::multi_thread`
(`src/src/download.rs:115-121`): after all workers have terminated,
success iff the shared queue is empty; otherwise a fixed solver error. -/
def completion_check (queue : List (Nat × String)) : Except Error Unit :=
  match queue.length with
  | 0 => Except.ok ()
  | _ + 1 => Except.error (Error.solver "not all URLs were downloaded successfully")

/-! # Theorems -/

/-- C2: a single fetch classifies the solver's envelope exactly per the
spec's decision table (first match wins, `Egress` being the code's
`Proxy` kind and `Transport` the code's `Solver` kind): tunnel-failure
marker on a non-"ok" status gives a fatal `Proxy` error; the
challenge-solving-failed marker a non-fatal `Solution` error; any other
non-"ok" status a fatal `Solver` error; status "ok" without a solution
payload a non-fatal `Solution` error; a solution payload with HTTP
status ≠ 200 a fatal `Status` error; and status "ok" with a 200 solution
returns the solution's response body. -/
theorem claim_C2_fetch_decision_table (res : Response) :
    (res.status ≠ "ok" →
      strContains res.message "ERR_TUNNEL_CONNECTION_FAILED" = true →
      resultKind (fetchClassify res) = some (ErrorType.Proxy, true)) ∧
    (res.status ≠ "ok" →
      strContains res.message "ERR_TUNNEL_CONNECTION_FAILED" = false →
      strContains res.message "Error solving the challenge" = true →
      resultKind (fetchClassify res) = some (ErrorType.Solution, false)) ∧
    (res.status ≠ "ok" →
      strContains res.message "ERR_TUNNEL_CONNECTION_FAILED" = false →
      strContains res.message "Error solving the challenge" = false →
      resultKind (fetchClassify res) = some (ErrorType.Solver, true)) ∧
    (res.status = "ok" → res.solution = none →
      resultKind (fetchClassify res) = some (ErrorType.Solution, false)) ∧
    (∀ sol, res.status = "ok" → res.solution = some sol → sol.status ≠ 200 →
      resultKind (fetchClassify res) = some (ErrorType.Status, true)) ∧
    (∀ sol, res.status = "ok" → res.solution = some sol → sol.status = 200 →
      fetchClassify res = Except.ok sol.response) := by
  refine ⟨?_, ?_, ?_, ?_, ?_, ?_⟩
  · intro h ht
    simp [fetchClassify, post_data, Error.parse_solution_error, resultKind, h, ht]
  · intro h ht hc
    simp [fetchClassify, post_data, Error.parse_solution_error, resultKind, h, ht, hc]
  · intro h ht hc
    simp [fetchClassify, post_data, Error.parse_solution_error, resultKind, h, ht, hc]
  · intro h hs
    simp [fetchClassify, post_data, resultKind, Error.solution, h, hs]
  · intro sol h hs hne
    simp [fetchClassify, post_data, resultKind, Error.status, h, hs, hne]
  · intro sol h hs h200
    simp [fetchClassify, post_data, h, hs, h200]

/-- C2 witness: the decision table evaluated on one concrete envelope
per row. -/
theorem claim_C2_fetch_decision_table_witness :
    resultKind (fetchClassify ⟨"error", "x ERR_TUNNEL_CONNECTION_FAILED y", none, none⟩) =
      some (ErrorType.Proxy, true) ∧
    resultKind (fetchClassify ⟨"error", "x Error solving the challenge y", none, none⟩) =
      some (ErrorType.Solution, false) ∧
    resultKind (fetchClassify ⟨"error", "some other failure", none, none⟩) =
      some (ErrorType.Solver, true) ∧
    resultKind (fetchClassify ⟨"ok", "", none, none⟩) =
      some (ErrorType.Solution, false) ∧
    resultKind (fetchClassify ⟨"ok", "", none, some ⟨"u", 503, "body"⟩⟩) =
      some (ErrorType.Status, true) ∧
    fetchClassify ⟨"ok", "", none, some ⟨"u", 200, "body"⟩⟩ = Except.ok "body" :=
  ⟨(claim_C2_fetch_decision_table _).1 (by decide) (by decide),
   (claim_C2_fetch_decision_table _).2.1 (by decide) (by decide) (by decide),
   (claim_C2_fetch_decision_table _).2.2.1 (by decide) (by decide) (by decide),
   (claim_C2_fetch_decision_table _).2.2.2.1 (by decide) (by decide),
   (claim_C2_fetch_decision_table _).2.2.2.2.1 ⟨"u", 503, "body"⟩ (by decide) rfl (by decide),
   (claim_C2_fetch_decision_table _).2.2.2.2.2 ⟨"u", 200, "body"⟩ (by decide) rfl rfl⟩

/-- C5 counterexample: the completion check returns the very same fixed
error for one undelivered item as for two, so the count of undelivered
items is not surfaced to the caller. -/
theorem claim_C5_count_not_surfaced :
    completion_check [(0, "u")] = completion_check [(0, "u"), (1, "v")] ∧
    completion_check [(0, "u")] =
      Except.error (Error.solver "not all URLs were downloaded successfully") :=
  ⟨rfl, rfl⟩

/-- C5 (amended): after the workers have terminated the orchestrator
inspects the queue; empty means success, non-empty means a failure —
but the failure is the fixed fatal `Solver` error
`"not all URLs were downloaded successfully"`, which does not carry the
count of undelivered items. -/
theorem claim_C5_completion_check (queue : List (Nat × String)) :
    (queue = [] → completion_check queue = Except.ok ()) ∧
    (queue ≠ [] → completion_check queue =
      Except.error (Error.solver "not all URLs were downloaded successfully")) := by
  constructor
  · intro h
    subst h
    rfl
  · intro h
    match queue with
    | [] => exact absurd rfl h
    | _ :: _ => rfl

/-- C5 witness: the completion check evaluated on an empty and on a
non-empty queue. -/
theorem claim_C5_completion_check_witness :
    completion_check [] = Except.ok () ∧
    completion_check [(0, "u")] =
      Except.error (Error.solver "not all URLs were downloaded successfully") :=
  ⟨(claim_C5_completion_check []).1 rfl,
   (claim_C5_completion_check [(0, "u")]).2 (by decide)⟩

/-- C6 counterexample: when a session is held and the transport-level
destroy call fails, `destroy_session` propagates the error to its caller
(via `?`) and leaves the session held — it does not "never fail the
caller". -/
theorem claim_C6_destroy_session_can_fail :
    destroy_session (some "sess") (Except.error (Error.solver "connection refused")) =
      (Except.error (Error.solver "connection refused"), some "sess", true) ∧
    (destroy_session (some "sess")
        (Except.error (Error.solver "connection refused"))).1 ≠ Except.ok () := by
  refine ⟨rfl, ?_⟩
  intro h
  simp [destroy_session] at h

/-- C6 (amended): with no session held, `destroy_session` returns
success without sending any remote command; with a session held it
sends the destroy command, and when the transport call succeeds it
clears the local session and returns success (the solver's reply body
is never inspected); but a transport-level failure of the destroy call
is returned to the caller and the session is not cleared. -/
theorem claim_C6_destroy_session (sendRes : Except Error Unit) :
    (destroy_session none sendRes = (Except.ok (), none, false)) ∧
    (∀ s, destroy_session (some s) (Except.ok ()) = (Except.ok (), none, true)) ∧
    (∀ s e, destroy_session (some s) (Except.error e) =
      (Except.error e, some s, true)) := by
  exact ⟨rfl, fun s => rfl, fun s e => rfl⟩

/-- The worker loop partitions the queue it started from: the delivered
items (in order) followed by the queue it leaves behind are exactly the
original queue. -/
theorem doWorkLoop_partition (dl : Nat → String → Bool) :
    ∀ q, (doWorkLoop dl q).2 ++ (doWorkLoop dl q).1 = q := by
  intro q
  induction q with
  | nil => rfl
  | cons hd tl ih =>
    obtain ⟨i, url⟩ := hd
    by_cases h : dl i url
    · simpa [doWorkLoop, h] using ih
    · simp [doWorkLoop, h]

/-- The queue a worker leaves behind is either empty or headed by the
exact item whose fetch failed. -/
theorem doWorkLoop_fail_front (dl : Nat → String → Bool) :
    ∀ q, (doWorkLoop dl q).1 = [] ∨
      ∃ i url t, (doWorkLoop dl q).1 = (i, url) :: t ∧ dl i url = false := by
  intro q
  induction q with
  | nil => exact Or.inl rfl
  | cons hd tl ih =>
    obtain ⟨i, url⟩ := hd
    by_cases h : dl i url
    · simpa [doWorkLoop, h] using ih
    · right
      exact ⟨i, url, tl, by simp [doWorkLoop, h], by simpa using h⟩

/-- C3: a worker never silently drops a popped item — the items it
delivered followed by the queue it leaves behind are exactly the queue
it started from, so every item is delivered or still queued; when the
session was created and the loop ended on a failure, the failed item
(same index, same URL) sits at the front of the remaining queue; and the
worker calls `destroy_session` on the way out however the run ended. -/
theorem claim_C3_worker_no_drop (createRes : Except Error Unit)
    (dl : Nat → String → Bool) (queue : List (Nat × String)) :
    (do_work createRes dl queue).destroyedSession = true ∧
    (do_work createRes dl queue).delivered ++ (do_work createRes dl queue).queue = queue ∧
    (∀ item ∈ queue, item ∈ (do_work createRes dl queue).delivered ∨
      item ∈ (do_work createRes dl queue).queue) ∧
    (createRes = Except.ok () →
      (do_work createRes dl queue).queue = [] ∨
        ∃ i url t, (do_work createRes dl queue).queue = (i, url) :: t ∧
          dl i url = false) := by
  match createRes with
  | Except.error e =>
    refine ⟨rfl, by simp [do_work], ?_, ?_⟩
    · intro item hmem
      exact Or.inr hmem
    · intro h
      exact absurd h (by simp)
  | Except.ok _ =>
    refine ⟨rfl, ?_, ?_, ?_⟩
    · simpa [do_work] using doWorkLoop_partition dl queue
    · intro item hmem
      have hpart := doWorkLoop_partition dl queue
      have : item ∈ (doWorkLoop dl queue).2 ++ (doWorkLoop dl queue).1 := by
        rw [hpart]; exact hmem
      simpa [do_work] using List.mem_append.mp this
    · intro _
      simpa [do_work] using doWorkLoop_fail_front dl queue

/-- C3 witness: one worker over a three-item queue where the fetch of
item 1 fails. -/
theorem claim_C3_worker_no_drop_witness :
    (do_work (Except.ok ()) (fun i _ => i == 0) [(0, "a"), (1, "b"), (2, "c")]).destroyedSession
      = true ∧
    (do_work (Except.ok ()) (fun i _ => i == 0) [(0, "a"), (1, "b"), (2, "c")]).delivered ++
      (do_work (Except.ok ()) (fun i _ => i == 0) [(0, "a"), (1, "b"), (2, "c")]).queue =
      [(0, "a"), (1, "b"), (2, "c")] ∧
    ((do_work (Except.ok ()) (fun i _ => i == 0) [(0, "a"), (1, "b"), (2, "c")]).queue = [] ∨
      ∃ i url t,
        (do_work (Except.ok ()) (fun i _ => i == 0) [(0, "a"), (1, "b"), (2, "c")]).queue =
          (i, url) :: t ∧ (fun (i : Nat) (_ : String) => i == 0) i url = false) := by
  have h := claim_C3_worker_no_drop (Except.ok ()) (fun i _ => i == 0)
    [(0, "a"), (1, "b"), (2, "c")]
  exact ⟨h.1, h.2.1, h.2.2.2 rfl⟩

/-- C7: a fatal error from the very first fetch attempt makes the retry
loop return that error immediately — one fetch call, zero recover calls,
so no session destroy, egress restart or session re-creation happens. -/
theorem claim_C7_fatal_short_circuit (fetchO : Nat → Except Error String)
    (recO : Nat → Option Error) (e : Error) (h0 : fetchO 0 = Except.error e)
    (hfat : e.fatal = true) (max fuel : Nat) (hfuel : 1 ≤ fuel) :
    n_attempts fetchO recO max fuel = some (Except.error e, 1, 0) := by
  match fuel, hfuel with
  | f + 1, _ => simp [n_attempts, nAttemptsOuter, h0, hfat]

/-- C7 witness: a fatal tunnel-failure (`Proxy`/Egress) error on the
first fetch short-circuits the loop with no recover call. -/
theorem claim_C7_fatal_short_circuit_witness :
    n_attempts (fun _ => Except.error (Error.parse_solution_error "x ERR_TUNNEL_CONNECTION_FAILED y"))
      (fun _ => none) 5 10 =
      some (Except.error (Error.parse_solution_error "x ERR_TUNNEL_CONNECTION_FAILED y"), 1, 0) :=
  claim_C7_fatal_short_circuit _ _ _ rfl (by decide) 5 10 (by decide)

/-- Budget exhaustion through fetch failures: if every fetch returns a
non-fatal error and every recovery succeeds, the loop performs one more
fetch per remaining budget unit and returns the last fetch error. -/
theorem nAttempts_fetch_exhaustion (fetchO : Nat → Except Error String) (eF : Nat → Error)
    (recO : Nat → Option Error) (N : Nat)
    (hf : ∀ k, fetchO k = Except.error (eF k))
    (hnf : ∀ k, (eF k).fatal = false)
    (hr : ∀ k, recO k = none) :
    ∀ d f r a fuel, 1 ≤ d → a + d = N → 2 * d ≤ fuel →
      nAttemptsOuter fetchO recO N fuel f r a =
        some (Except.error (eF (f + d - 1)), f + d, r + (d - 1)) := by
  intro d
  induction d with
  | zero => intro f r a fuel h1 _ _; exact absurd h1 (by omega)
  | succ d ih =>
    intro f r a fuel _ hN hfuel
    rcases Nat.eq_zero_or_pos d with hd | hd
    · subst hd
      obtain ⟨k, rfl⟩ : ∃ k, fuel = k + 1 := ⟨fuel - 1, by omega⟩
      have hle : N ≤ a + 1 := by omega
      simp [nAttemptsOuter, hf f, hnf f, hle]
    · obtain ⟨k, rfl⟩ : ∃ k, fuel = k + 2 := ⟨fuel - 2, by omega⟩
      have hlt : ¬ (N ≤ a + 1) := by omega
      have e1 : f + 1 + d - 1 = f + (d + 1) - 1 := by omega
      have e2 : f + 1 + d = f + (d + 1) := by omega
      have e3 : r + 1 + (d - 1) = r + (d + 1 - 1) := by omega
      have ihres := ih (f + 1) (r + 1) (a + 1) k hd (by omega) (by omega)
      rw [e1, e2, e3] at ihres
      simp [nAttemptsOuter, hf f, hnf f, hlt, nAttemptsInner, hr r, ihres]

/-- Budget exhaustion through recovery failures: if every recovery
returns a non-fatal error, the recovery sub-loop increments the same
shared counter until the budget is reached and returns the last
recovery error, with no further fetch calls. -/
theorem nAttempts_recover_exhaustion (fetchO : Nat → Except Error String)
    (recO : Nat → Option Error) (eR : Nat → Error) (N : Nat)
    (hr : ∀ k, recO k = some (eR k))
    (hnf : ∀ k, (eR k).fatal = false) :
    ∀ d f r a fuel, 1 ≤ d → a + d = N → d ≤ fuel →
      nAttemptsInner fetchO recO N fuel f r a =
        some (Except.error (eR (r + d - 1)), f, r + d) := by
  intro d
  induction d with
  | zero => intro f r a fuel h1 _ _; exact absurd h1 (by omega)
  | succ d ih =>
    intro f r a fuel _ hN hfuel
    obtain ⟨k, rfl⟩ : ∃ k, fuel = k + 1 := ⟨fuel - 1, by omega⟩
    rcases Nat.eq_zero_or_pos d with hd | hd
    · subst hd
      have hle : N ≤ a + 1 := by omega
      simp [nAttemptsInner, hr r, hnf r, hle]
    · have hlt : ¬ (N ≤ a + 1) := by omega
      have e1 : r + 1 + d - 1 = r + (d + 1) - 1 := by omega
      have e2 : r + 1 + d = r + (d + 1) := by omega
      have ihres := ih f (r + 1) (a + 1) k hd (by omega) (by omega)
      rw [e1, e2] at ihres
      simp [nAttemptsInner, hr r, hnf r, hlt, ihres]

/-- C1: with attempt budget `N ≥ 1`, if every fetch returns a non-fatal
`Solution` error and every recovery succeeds, the retry loop performs
exactly `N` failed fetch attempts (and `N - 1` recoveries) and returns
the last fetch error, which is of `Solution` kind; and because the
attempt counter is shared, if instead every recovery also fails
non-fatally, the budget `N ≥ 2` is reached after one fetch failure plus
`N - 1` recovery failures and the loop returns the last (recovery)
error. -/
theorem claim_C1_retry_budget (fetchO : Nat → Except Error String) (eF : Nat → Error)
    (recO recOfail : Nat → Option Error) (eR : Nat → Error)
    (hf : ∀ k, fetchO k = Except.error (eF k))
    (hkind : ∀ k, (eF k).error_type = ErrorType.Solution)
    (hnf : ∀ k, (eF k).fatal = false)
    (hrOk : ∀ k, recO k = none)
    (hrF : ∀ k, recOfail k = some (eR k))
    (hnfR : ∀ k, (eR k).fatal = false)
    (N : Nat) (hN : 1 ≤ N) :
    (n_attempts fetchO recO N (2 * N) =
        some (Except.error (eF (N - 1)), N, N - 1) ∧
      (eF (N - 1)).error_type = ErrorType.Solution) ∧
    (2 ≤ N → n_attempts fetchO recOfail N (2 * N) =
        some (Except.error (eR (N - 2)), 1, N - 1)) := by
  constructor
  · constructor
    · have h := nAttempts_fetch_exhaustion fetchO eF recO N hf hnf hrOk N 0 0 0 (2 * N)
        hN (by omega) (by omega)
      simpa [n_attempts] using h
    · exact hkind (N - 1)
  · intro h2
    obtain ⟨k, hk⟩ : ∃ k, 2 * N = k + 1 := ⟨2 * N - 1, by omega⟩
    have hlt : ¬ (N ≤ 0 + 1) := by omega
    have h := nAttempts_recover_exhaustion fetchO recOfail eR N hrF hnfR (N - 1) 1 0 1 k
      (by omega) (by omega) (by omega)
    have e1 : 0 + (N - 1) - 1 = N - 2 := by omega
    have e2 : 0 + (N - 1) = N - 1 := by omega
    rw [e1, e2] at h
    rw [n_attempts, hk]
    simp [nAttemptsOuter, hf 0, hnf 0, hlt, h]

/-- C1 witness: budget 3 — three failing fetches with successful
recoveries return the fetch error after exactly 3 fetch calls; with
failing recoveries the same budget is consumed by one fetch failure
plus two recovery failures and the recovery error is returned. -/
theorem claim_C1_retry_budget_witness :
    (n_attempts (fun _ => Except.error ⟨ErrorType.Solution, false, "challenge failed"⟩)
        (fun _ => none) 3 6 =
      some (Except.error ⟨ErrorType.Solution, false, "challenge failed"⟩, 3, 2)) ∧
    (n_attempts (fun _ => Except.error ⟨ErrorType.Solution, false, "challenge failed"⟩)
        (fun _ => some ⟨ErrorType.Proxy, false, "waiting for proxy timed out"⟩) 3 6 =
      some (Except.error ⟨ErrorType.Proxy, false, "waiting for proxy timed out"⟩, 1, 2)) := by
  have h := claim_C1_retry_budget
    (fun _ => Except.error ⟨ErrorType.Solution, false, "challenge failed"⟩)
    (fun _ => ⟨ErrorType.Solution, false, "challenge failed"⟩)
    (fun _ => none)
    (fun _ => some ⟨ErrorType.Proxy, false, "waiting for proxy timed out"⟩)
    (fun _ => ⟨ErrorType.Proxy, false, "waiting for proxy timed out"⟩)
    (fun _ => rfl) (fun _ => rfl) (fun _ => rfl) (fun _ => rfl) (fun _ => rfl) (fun _ => rfl)
    3 (by omega)
  exact ⟨h.1.1, h.2 (by omega)⟩



/-- Any error out of `wait_for_status` is the non-fatal proxy timeout
error. -/
theorem wait_for_status_error_shape (statusO : Nat → Option ProxyStatus)
    (target : ProxyStatus) :
    ∀ fuel k e, wait_for_status statusO target fuel k = Except.error e →
      e = Error.proxy "waiting for proxy timed out" := by
  intro fuel
  induction fuel with
  | zero =>
    intro k e h
    simpa [wait_for_status] using h.symm
  | succ fuel ih =>
    intro k e h
    by_cases hs : statusO k = some target
    · simp [wait_for_status, hs] at h
    · simp only [wait_for_status, if_neg hs] at h
      exact ih (k + 1) e h

/-- Any error out of `wait_for_ip` is the non-fatal proxy timeout
error. -/
theorem wait_for_ip_error_shape (ipO : Nat → Option String) :
    ∀ fuel k e, wait_for_ip ipO fuel k = Except.error e →
      e = Error.proxy "waiting for IP timed out" := by
  intro fuel
  induction fuel with
  | zero =>
    intro k e h
    simpa [wait_for_ip] using h.symm
  | succ fuel ih =>
    intro k e h
    match hs : ipO k with
    | some ip => simp [wait_for_ip, hs] at h
    | none =>
      simp only [wait_for_ip, hs] at h
      exact ih (k + 1) e h

/-- C4 counterexample: even a fully successful restart sends only the
single `"stopped"` transition request — `Restart` never requests the
`Running` state, contrary to the claim. -/
theorem claim_C4_no_running_request :
    (restart (Except.ok ())
        (fun k => if k = 0 then some ProxyStatus.Stopped else some ProxyStatus.Running)
        (fun _ => some "1.2.3.4") 5).1 = Except.ok () ∧
    (restart (Except.ok ())
        (fun k => if k = 0 then some ProxyStatus.Stopped else some ProxyStatus.Running)
        (fun _ => some "1.2.3.4") 5).2 = ["stopped"] ∧
    "running" ∉ (restart (Except.ok ())
        (fun k => if k = 0 then some ProxyStatus.Stopped else some ProxyStatus.Running)
        (fun _ => some "1.2.3.4") 5).2 := by
  refine ⟨rfl, rfl, by decide⟩

/-- C4 (amended): `Restart` sends exactly one transition request (for
`Stopped`, result ignored) and never a `Running` request; it then runs
three bounded convergence waits — for `Stopped`, for `Running` (relying
on the egress to come back up on its own), and for a non-empty public IP
— succeeding iff all three converge within their poll budgets, and
returning the non-fatal `Proxy`-kind wait-timeout error when one does
not. -/
theorem claim_C4_restart_protocol (putRes : Except Error Unit)
    (statusO : Nat → Option ProxyStatus) (ipO : Nat → Option String) (seconds : Nat) :
    (restart putRes statusO ipO seconds).2 = ["stopped"] ∧
    (∀ e, (restart putRes statusO ipO seconds).1 = Except.error e →
      e.error_type = ErrorType.Proxy ∧ e.fatal = false) ∧
    ((restart putRes statusO ipO seconds).1 = Except.ok () ↔
      ∃ k1 k2 k3, wait_for_status statusO ProxyStatus.Stopped seconds 0 = Except.ok k1 ∧
        wait_for_status statusO ProxyStatus.Running seconds k1 = Except.ok k2 ∧
        wait_for_ip ipO seconds 0 = Except.ok k3) := by
  match h1 : wait_for_status statusO ProxyStatus.Stopped seconds 0 with
  | Except.error e1 =>
    have he := wait_for_status_error_shape statusO ProxyStatus.Stopped seconds 0 e1 h1
    refine ⟨by simp [restart, h1], ?_, ?_⟩
    · intro e he'
      simp [restart, h1] at he'
      subst he'
      rw [he]
      exact ⟨rfl, rfl⟩
    · constructor
      · intro hok
        simp [restart, h1] at hok
      · rintro ⟨k1, k2, k3, e1', e2', e3'⟩
        exact Except.noConfusion e1'
  | Except.ok k1 =>
    match h2 : wait_for_status statusO ProxyStatus.Running seconds k1 with
    | Except.error e2 =>
      have he := wait_for_status_error_shape statusO ProxyStatus.Running seconds k1 e2 h2
      refine ⟨by simp [restart, h1, h2], ?_, ?_⟩
      · intro e he'
        simp [restart, h1, h2] at he'
        subst he'
        rw [he]
        exact ⟨rfl, rfl⟩
      · constructor
        · intro hok
          simp [restart, h1, h2] at hok
        · rintro ⟨k1', k2', k3', e1', e2', e3'⟩
          injection e1' with hk
          subst hk
          rw [h2] at e2'
          exact Except.noConfusion e2'
    | Except.ok k2 =>
      match h3 : wait_for_ip ipO seconds 0 with
      | Except.error e3 =>
        have he := wait_for_ip_error_shape ipO seconds 0 e3 h3
        refine ⟨by simp [restart, h1, h2, h3], ?_, ?_⟩
        · intro e he'
          simp [restart, h1, h2, h3] at he'
          subst he'
          rw [he]
          exact ⟨rfl, rfl⟩
        · constructor
          · intro hok
            simp [restart, h1, h2, h3] at hok
          · rintro ⟨k1', k2', k3', e1', e2', e3'⟩
            exact Except.noConfusion e3'
      | Except.ok k3 =>
        refine ⟨by simp [restart, h1, h2, h3], ?_, ?_⟩
        · intro e he'
          simp [restart, h1, h2, h3] at he'
        · constructor
          · intro _
            refine ⟨k1, k2, k3, ?_, ?_, ?_⟩ <;> simp [h1, h2, h3]
          · intro _
            simp [restart, h1, h2, h3]

/-- C4 witness: a controller stuck on `Unknown` makes restart report
the `Proxy`-kind timeout; a converging controller makes it succeed. -/
theorem claim_C4_restart_protocol_witness :
    (restart (Except.ok ()) (fun _ => some ProxyStatus.Unknown) (fun _ => none) 3).2 =
      ["stopped"] ∧
    ((Error.proxy "waiting for proxy timed out").error_type = ErrorType.Proxy ∧
      (Error.proxy "waiting for proxy timed out").fatal = false) ∧
    (restart (Except.ok ())
        (fun k => if k = 0 then some ProxyStatus.Stopped else some ProxyStatus.Running)
        (fun _ => some "10.0.0.1") 2).1 = Except.ok () := by
  have h := claim_C4_restart_protocol (Except.ok ())
    (fun _ => some ProxyStatus.Unknown) (fun _ => none) 3
  have h2 := claim_C4_restart_protocol (Except.ok ())
    (fun k => if k = 0 then some ProxyStatus.Stopped else some ProxyStatus.Running)
    (fun _ => some "10.0.0.1") 2
  exact ⟨h.1, h.2.1 _ rfl, h2.2.2.mpr ⟨1, 2, 1, rfl, rfl, rfl⟩⟩



/-- A list starts with its own prefix of an append. -/
theorem listStartsWith_append (x y : List Char) :
    listStartsWith (x ++ y) x = true := by
  induction x with
  | nil => simp [listStartsWith]
  | cons a as ih => simp [listStartsWith, ih]

/-- Two prefixes of the same list with equal lengths are equal. -/
theorem listStartsWith_unique : ∀ (p q s : List Char),
    p.length = q.length → listStartsWith s p = true → listStartsWith s q = true →
    p = q := by
  intro p
  induction p with
  | nil =>
    intro q s hlen _ _
    cases q with
    | nil => rfl
    | cons b bs => simp at hlen
  | cons a as ih =>
    intro q s hlen hp hq
    cases q with
    | nil => simp at hlen
    | cons b bs =>
      cases s with
      | nil => simp [listStartsWith] at hp
      | cons c cs =>
        simp only [listStartsWith, Bool.and_eq_true, beq_iff_eq] at hp hq
        have : as = bs := ih bs cs (by simpa using hlen) hp.2 hq.2
        rw [← hp.1, ← hq.1, this]

/-- Filtering by a predicate that holds for every entry with a given key
does not change lookups of that key. -/
theorem lookup_filter_key (p : String) (q : String × String → Bool)
    (hq : ∀ v, q (p, v) = true) :
    ∀ l : List (String × String), List.lookup p (l.filter q) = List.lookup p l := by
  intro l
  induction l with
  | nil => rfl
  | cons hd tl ih =>
    obtain ⟨k, v⟩ := hd
    by_cases hpk : p = k
    · subst hpk
      rw [List.filter_cons_of_pos (by simpa using hq v)]
      simp [List.lookup]
    · have hne : (p == k) = false := by simpa using hpk
      by_cases hkeep : q (k, v) = true
      · rw [List.filter_cons_of_pos (by simpa using hkeep)]
        simp [List.lookup, hne, ih]
      · rw [List.filter_cons_of_neg (by simpa using hkeep)]
        simp [List.lookup, hne, ih]

/-- C8: constructing a cache purges exactly the entries whose names do
not start with today's date prefix — every surviving entry starts with
the prefix (so none carries a previous, equal-length, different day
prefix), every entry starting with the prefix survives, and any URL
whose entry was present under today's prefix is still readable via
`Get` after the purge. -/
theorem claim_C8_cache_clean (pfx oldPfx : String) (dir : List (String × String)) :
    (∀ e ∈ cleanDir pfx dir, strStartsWith e.1 pfx = true) ∧
    (oldPfx.length = pfx.length → oldPfx ≠ pfx →
      ∀ e ∈ cleanDir pfx dir, strStartsWith e.1 oldPfx = false) ∧
    (∀ e ∈ dir, strStartsWith e.1 pfx = true → e ∈ cleanDir pfx dir) ∧
    (∀ url data, List.lookup (url_to_path pfx url) dir = some data →
      cacheGet pfx (cleanDir pfx dir) url = some data) := by
  have hkept : ∀ e ∈ cleanDir pfx dir, strStartsWith e.1 pfx = true := by
    intro e he
    exact (List.mem_filter.mp he).2
  refine ⟨hkept, ?_, ?_, ?_⟩
  · intro hlen hne e he
    have hnew := hkept e he
    cases hold : strStartsWith e.1 oldPfx with
    | false => rfl
    | true =>
      have hdlen : oldPfx.data.length = pfx.data.length := hlen
      have : oldPfx.data = pfx.data :=
        listStartsWith_unique oldPfx.data pfx.data e.1.data hdlen hold hnew
      exact absurd (String.ext this) hne
  · intro e he hpre
    exact List.mem_filter.mpr ⟨he, hpre⟩
  · intro url data hlook
    have hpath : ∀ v, strStartsWith ((url_to_path pfx url, v) : String × String).1 pfx = true := by
      intro v
      simp only [url_to_path, strStartsWith, String.data_append, List.append_assoc]
      exact listStartsWith_append pfx.data ("_".data ++ (sanitizeUrl url).data)
    have := lookup_filter_key (url_to_path pfx url)
      (fun e => strStartsWith e.1 pfx) hpath dir
    unfold cacheGet cleanDir
    rw [this, hlook]

/-- C8 witness: a directory holding yesterday's and today's copy of the
same URL: the old entry is purged, the fresh one survives and is served
by `Get`. -/
theorem claim_C8_cache_clean_witness :
    cacheGet "2026-10-12"
      (cleanDir "2026-10-12"
        [("2026-10-11_http_a_b", "old"), ("2026-10-12_http_a_b", "data")])
      "http://a/b" = some "data" ∧
    (("2026-10-11_http_a_b", "old") ∉
      cleanDir "2026-10-12"
        [("2026-10-11_http_a_b", "old"), ("2026-10-12_http_a_b", "data")]) ∧
    ("2026-10-12_http_a_b", "data") ∈
      cleanDir "2026-10-12"
        [("2026-10-11_http_a_b", "old"), ("2026-10-12_http_a_b", "data")] := by
  have h := claim_C8_cache_clean "2026-10-12" "2026-10-11"
    [("2026-10-11_http_a_b", "old"), ("2026-10-12_http_a_b", "data")]
  refine ⟨h.2.2.2 "http://a/b" "data" (by decide), ?_, h.2.2.1 _ (by decide) (by decide)⟩
  intro hmem
  have := h.2.1 (by decide) (by decide) _ hmem
  simp only at this
  exact absurd this (by decide)

/-- C9: the `sessions.create` payload built for a proxy with url
`"http://egress:8888"`, username `"alice"` and password `"secret"`
carries `password = "alice"` — `Proxy::to_json` reads `self.username()`
a second time when filling the `"password"` field, so the configured
password is never sent. -/
theorem claim_C9_password_field_is_username :
    Proxy.to_json ⟨"http://egress:8888", some "alice", some "secret"⟩ =
      [("url", "http://egress:8888"), ("username", "alice"), ("password", "alice")] ∧
    (create_session_data (some ⟨"http://egress:8888", some "alice", some "secret"⟩)).2 =
      some [("url", "http://egress:8888"), ("username", "alice"), ("password", "alice")] :=
  ⟨rfl, rfl⟩

/-- C10: the URL sanitization is not injective — `"http://a/b"` and
`"http://a//b"` are distinct URLs mapping to the same cache path, so an
insert under the first is served back by a lookup for the second. -/
theorem claim_C10_sanitization_aliases :
    ("http://a/b" : String) ≠ "http://a//b" ∧
    sanitizeUrl "http://a/b" = sanitizeUrl "http://a//b" ∧
    cacheGet "2026-10-12" (cacheInsert "2026-10-12" [] "http://a/b" "data") "http://a//b" =
      some "data" :=
  ⟨by decide, by decide, by decide⟩

end Wnrake
